import Mathlib

/-!
Verification of `src/docs/example1.py`.

The module under study consists of a data-holder class `Item`, a class
`MenuOptions` decorated with `@enum.Enum`, a pure accumulation function
`fact`, and a driver block guarded by `if __name__ == "__main__"`.  We
embed the accumulation function directly (Python integers are unbounded,
so they become `Int`; `range` becomes an explicit list of integers), and
the module-level / driver-level control flow as functions returning the
lines written to standard output together with the Python error, if any,
that ended execution.
-/

namespace Example1

/-- Python exceptions relevant to this module.  The `@enum.Enum`
decoration raises a value-lookup failure (a `ValueError` in CPython up
to 3.11; newer versions raise `TypeError` with a different message, but
every version raises), and evaluating an unbound name raises
`NameError`. -/
inductive PyError where
  | valueError : String → PyError
  | nameError : String → PyError
deriving DecidableEq, Repr

/-- Python values as far as the enum decorator application needs them:
the decorator receives the class object `MenuOptions` as its single
argument. -/
inductive PyVal where
  | int : Int → PyVal
  | cls : String → PyVal
deriving DecidableEq, Repr

/-- Python `range(a, b)` over ints: the integers `a, a+1, ..., b-1`, in
order; empty when `b ≤ a`. -/
def pyRange (a b : Int) : List Int :=
  (List.range (b - a).toNat).map (fun k => a + k)

/-- `fact` from `example1.py`, line for line:
`x = 1`; `for i in range(1, n + 1): x += i`; `return x`. -/
def fact (n : Int) : Int :=
  (pyRange 1 (n + 1)).foldl (fun x i => x + i) 1

/-- Two successive invocations of `fact` on the same argument, paired.
`fact` is embedded as a pure function, so the absence of hidden state is
by construction; this definition records the double run explicitly. -/
def factTwice (n : Int) : Int × Int := (fact n, fact n)

/-- Evaluation of a call `fact(n)` in the Python exception monad.  Every
operation in the body is total on `int` arguments: `range(1, n + 1)`
always constructs, and each `x += i` is unbounded-integer addition,
which cannot raise.  So each loop step returns `Except.ok`. -/
def factExec (n : Int) : Except PyError Int :=
  (pyRange 1 (n + 1)).foldlM (fun x i => Except.ok (x + i)) 1

/-- The value-to-member map of the base class `enum.Enum` itself: it is
memberless. -/
def enumBaseValue2Member : List (PyVal × String) := []

/-- The class body of `MenuOptions` as written in the source: three
named integer members.  The body itself executes without error; the
failure happens afterwards, when the decorator is applied. -/
def menuOptionsMembers : List (String × Int) :=
  [("Option1", 0), ("Option2", 1), ("Option3", 2)]

/-- CPython `EnumMeta.__call__` with a single positional argument and no
`names` performs value lookup: `Enum.__new__` searches the class's
value-to-member map; on a miss, `_missing_` on plain `Enum` yields
nothing and an exception is raised (`ValueError` "... is not a valid
..."). -/
def enumCallLookup (clsName : String) (value2member : List (PyVal × String))
    (v : PyVal) : Except PyError String :=
  match value2member.find? (fun p => decide (p.1 = v)) with
  | some p => Except.ok p.2
  | none => Except.error (PyError.valueError ("is not a valid " ++ clsName))

/-- The global names the module would bind if all of its top-level
statements succeeded: `import enum`, `class Item`, `class MenuOptions`,
`def fact`.  The name `List` is bound by none of them, and no import
other than `enum` appears in the file. -/
def moduleEnv : List String := ["enum", "Item", "MenuOptions", "fact"]

/-- Evaluating a name in Python: an unbound name raises `NameError`. -/
def lookupName (env : List String) (x : String) : Except PyError Unit :=
  if x ∈ env then Except.ok () else Except.error (PyError.nameError x)

/-- The `if __name__ == "__main__"` block of `example1.py`.  Its first
statement, `nums = List.of(1, 2, 3, 4, 5)`, begins by evaluating the
name `List`; if that raises `NameError`, the block stops before either
`print` statement runs, with nothing written.  The successful branch of
the lookup has no meaning derivable from the source (the module gives
`List` no binding), so it is recorded as producing nothing; it is
unreachable for the actual module environment. -/
def runDriver (env : List String) : List String × Option PyError :=
  match lookupName env "List" with
  | Except.error e => ([], some e)
  | Except.ok _ => ([], none)

/-- Top-level execution of `example1.py`, statement by statement.
`import enum`, `class Item` and the class body of `MenuOptions` execute
without error; the decorator application `MenuOptions =
enum.Enum(MenuOptions)` is the first evaluation that can raise, and it
performs a value lookup of the class object in the memberless base
`Enum`.  If it raises, module execution stops: `def fact` is never
executed and the driver block is never reached.  `asMain` says whether
`__name__ == "__main__"` holds.  The result pairs the lines written to
standard output with the error, if any, that ended execution. -/
def runModule (asMain : Bool) : List String × Option PyError :=
  match enumCallLookup "Enum" enumBaseValue2Member (PyVal.cls "MenuOptions") with
  | Except.error e => ([], some e)
  | Except.ok _ => if asMain then runDriver moduleEnv else ([], none)

/-- Process exit status of a run: 0 when no error was raised, 1 (the
CPython status for an uncaught exception) otherwise. -/
def exitStatus (r : List String × Option PyError) : Nat :=
  match r.2 with
  | none => 0
  | some _ => 1

/-- The loop of `fact` specialised to a natural iteration count: the
fold of `x += i` over `1, ..., m` starting from 1. -/
def foldSum (m : Nat) : Int :=
  ((List.range m).map (fun k => (1 : Int) + k)).foldl (fun x i => x + i) 1

lemma pyRange_one_eq (n : Int) :
    pyRange 1 (n + 1) = (List.range n.toNat).map (fun k => (1 : Int) + k) := by
  simp [pyRange]

lemma fact_eq_foldSum (n : Int) : fact n = foldSum n.toNat := by
  rw [fact, pyRange_one_eq, foldSum]

lemma foldSum_succ (m : Nat) : foldSum (m + 1) = foldSum m + (1 + m) := by
  simp [foldSum, List.range_succ]

lemma foldSum_double (m : Nat) : 2 * foldSum m = 2 + (m : Int) * (m + 1) := by
  induction m with
  | zero => simp [foldSum]
  | succ k ih =>
      rw [foldSum_succ]
      push_cast
      push_cast at ih
      ring_nf
      ring_nf at ih
      linarith

lemma foldlM_except_ok (l : List Int) (a : Int) :
    (l.foldlM (fun x i => Except.ok (x + i)) a : Except PyError Int)
      = Except.ok (l.foldl (fun x i => x + i) a) := by
  induction l generalizing a with
  | nil => rfl
  | cons b t ih => exact ih (a + b)

/-- C1: for every non-negative integer `n`, `fact n = 1 + n * (n + 1) / 2`
(so in particular `fact 5 = 1 + 5 * 6 / 2 = 16`). -/
theorem fact_closed_form (n : Int) (h : 0 ≤ n) : fact n = 1 + n * (n + 1) / 2 := by
  have hd := foldSum_double n.toNat
  rw [Int.toNat_of_nonneg h] at hd
  rw [fact_eq_foldSum]
  have hnn : 0 ≤ n * (n + 1) := mul_nonneg h (by linarith)
  generalize foldSum n.toNat = F at hd ⊢
  generalize n * (n + 1) = S at hd hnn ⊢
  omega

/-- Witness for C1 at `n = 5`: the hypothesis `0 ≤ 5` holds and the
closed form gives `fact 5 = 1 + 5 * 6 / 2`, which evaluates to 16. -/
theorem fact_closed_form_witness :
    (0 ≤ (5 : Int) ∧ fact 5 = 1 + 5 * (5 + 1) / 2) ∧ fact 5 = 16 :=
  ⟨⟨by decide, fact_closed_form 5 (by decide)⟩, by decide⟩

/-- C2 (code divergence record): running the module as the top-level
program writes nothing at all to standard output — in particular not the
two claimed `[1, 2, 3, 4, 5]` lines — because module execution raises at
the `@enum.Enum` decoration before the driver block is reached. -/
theorem main_run_writes_nothing :
    (runModule true).1 = []
      ∧ (runModule true).1 ≠ ["[1, 2, 3, 4, 5]", "[1, 2, 3, 4, 5]"] := by
  decide

/-- C3 (code divergence record): the driver block, even taken on its
own, does not run to completion: its first statement raises, so no
sequence is constructed, nothing is mapped, and nothing is printed. -/
theorem driver_block_incomplete :
    (runDriver moduleEnv).2 ≠ none ∧ (runDriver moduleEnv).1 = [] := by
  decide

/-- C4: for every negative integer `n`, the loop of `fact` iterates over
an empty range, no error is raised, and the initial value 1 is
returned. -/
theorem fact_neg (n : Int) (h : n < 0) :
    pyRange 1 (n + 1) = [] ∧ factExec n = Except.ok 1 ∧ fact n = 1 := by
  have h0 : (n + 1 - 1).toNat = 0 := by omega
  have hr : pyRange 1 (n + 1) = [] := by
    unfold pyRange
    rw [h0]
    rfl
  refine ⟨hr, ?_, ?_⟩
  · rw [factExec, hr]; rfl
  · rw [fact, hr]; rfl

/-- Witness for C4 at `n = -3`: the hypothesis `-3 < 0` holds, the range
is empty and the result is 1. -/
theorem fact_neg_witness :
    pyRange 1 (-3 + 1) = [] ∧ factExec (-3) = Except.ok 1 ∧ fact (-3) = 1 :=
  fact_neg (-3) (by decide)

/-- C5: `fact 0 = 1` — at `n = 0` the loop range `range(1, 0 + 1)` is
empty and the result is the initial value 1. -/
theorem fact_zero : fact 0 = 1 ∧ pyRange 1 (0 + 1) = [] := by decide

/-- C6 (code divergence record): the top-level run does not terminate
with success status: it ends with an uncaught exception, so the exit
status is nonzero (CPython exits with status 1). -/
theorem main_run_not_success : exitStatus (runModule true) ≠ 0 := by decide

/-- C7: `fact` is deterministic — two invocations with the same argument
yield identical results.  In this embedding `fact` is a pure function of
its argument alone, so the property holds definitionally: there is no
hidden state for the result to depend on. -/
theorem fact_deterministic (n : Int) : (factTwice n).1 = (factTwice n).2 := rfl

/-- C8: for every non-negative integer `n`, evaluating `fact(n)` raises
no error: every step of the body returns `Except.ok` and the call
returns the integer computed by the loop. -/
theorem fact_no_error (n : Int) (_h : 0 ≤ n) : factExec n = Except.ok (fact n) := by
  rw [factExec, fact, foldlM_except_ok]

/-- Witness for C8 at `n = 5`: the hypothesis `0 ≤ 5` holds and the call
evaluates to `Except.ok` of the loop result. -/
theorem fact_no_error_witness : factExec 5 = Except.ok (fact 5) :=
  fact_no_error 5 (by decide)

/-- C9: whether or not the module is run as the top-level program, its
execution raises at the `MenuOptions` class statement — the decorator
`enum.Enum(MenuOptions)` performs a value lookup on the memberless base
`Enum`, which fails — so the driver block is never reached and no output
is produced. -/
theorem module_enum_decorator_raises (b : Bool) :
    runModule b = ([], some (PyError.valueError "is not a valid Enum")) := by
  cases b <;> rfl

/-- C10: in the module environment (which binds only `enum`, `Item`,
`MenuOptions` and `fact`) the name `List` is unbound, so the first
statement of the driver block raises `NameError` and neither `print`
executes: the driver writes nothing. -/
theorem driver_raises_nameError :
    "List" ∉ moduleEnv
      ∧ runDriver moduleEnv = ([], some (PyError.nameError "List")) := by
  decide

end Example1
